import Mathlib

/-!
Verification development for the astrocut core: a shallow embedding of
`src/astrocut/utils/wcs_fitting.py` (the WCS fitter) and, for the cutout
geometry engine whose module is not part of the provided sources, a model
built from the specification.  Machine reals are modelled as exact
rationals; the external nonlinear least-squares solver and the spherical
geometry routines of the coordinate library are modelled as oracle
functions supplied per call.
-/

namespace Astrocut

/-- Python-level errors that `fit_wcs_from_points` can raise. -/
inductive PyErr where
  | valueError (msg : String)
  | assertionError
  | nameError (missing : String)
  | indexError
deriving DecidableEq, Repr

/-- `True` exactly for errors of Python class `ValueError`. -/
def PyErr.isValueError : PyErr → Bool
  | .valueError _ => true
  | _ => false

/-- SIP distortion coefficients: forward grids `a`, `b`, inverse grids
`ap`, `bp`, and the reference pixel, mirroring `astropy.wcs.Sip`. -/
structure SipCoeffs where
  a : List (List ℚ)
  b : List (List ℚ)
  ap : List (List ℚ)
  bp : List (List ℚ)
  crpix : List ℚ
deriving DecidableEq, Repr

/-- The WCS fields that `wcs_fitting.py` reads and writes: projection type
strings, reference value and pixel, linear CD matrix (row-major 2x2),
coordinate increments, optional SIP distortion, and the pixel shape. -/
structure Wcs where
  ctype : List String
  crval : List ℚ
  crpix : List ℚ
  cd : List ℚ
  cdelt : List ℚ
  sip : Option SipCoeffs
  pixel_shape : Option (ℚ × ℚ)
deriving DecidableEq, Repr

/-- The `projection` argument: a three-letter code string or a template
WCS object. -/
inductive ProjArg where
  | code (s : String)
  | wcsObj (w : Wcs)
deriving DecidableEq, Repr

/-- The `proj_point` argument: the literal string center, a SkyCoord
carrying `size` points whose first point is `(plon, plat)`, or any value
that is neither the center literal nor a SkyCoord. -/
inductive ProjPointArg where
  | center
  | sky (size : ℕ) (plon plat : ℚ)
  | other
deriving DecidableEq, Repr

/-- The `sip_degree` argument: Python `None`, a Python `int`, or a value
of any other type. -/
inductive SipDegreeArg where
  | noneArg
  | intArg (n : ℤ)
  | otherArg
deriving DecidableEq, Repr

/-- Python truthiness of the `sip_degree` value as used by
`if sip_degree:` (source line 245): `None` and `0` are falsy.  The
`otherArg` case is unreachable because validation rejects it earlier. -/
def sipTruthy : SipDegreeArg → Bool
  | .noneArg => false
  | .intArg n => n != 0
  | .otherArg => true

/-- `numpy.max` over a nonempty array; 0 as a junk value for the empty
list, on which NumPy would error. -/
def pyMax (l : List ℚ) : ℚ := l.foldl max (l.headD 0)

/-- `numpy.min` over a nonempty array; 0 as a junk value for the empty
list. -/
def pyMin (l : List ℚ) : ℚ := l.foldl min (l.headD 0)

/-- Index of the first minimal absolute value, as `numpy.argmin(np.abs l)`:
running index, best index so far, best value so far. -/
def argminAbsAux : List ℚ → ℕ → ℕ → ℚ → ℕ
  | [], _, best, _ => best
  | a :: t, i, best, bv =>
      if |a| < bv then argminAbsAux t (i + 1) i |a|
      else argminAbsAux t (i + 1) best bv

/-- The helper `close = lambda l, p: p[np.argmin(np.abs(l))]` of
`fit_wcs_from_points` (source line 213). -/
def close (l p : List ℚ) : ℚ :=
  match l with
  | [] => p.getD 0 0
  | a :: t => p.getD (argminAbsAux t 1 0 |a|) 0

/-- Whether `pat` occurs as a contiguous prefix of `l`. -/
def startsWithChars : List Char → List Char → Bool
  | [], _ => true
  | _ :: _, [] => false
  | a :: as, b :: bs => a == b && startsWithChars as bs

/-- Whether `pat` occurs as a contiguous run inside `l`. -/
def hasInfixChars (pat : List Char) : List Char → Bool
  | [] => startsWithChars pat []
  | c :: rest => startsWithChars pat (c :: rest) || hasInfixChars pat rest

/-- Python substring membership `pat in s`. -/
def strContains (s pat : String) : Bool := hasInfixChars pat.toList s.toList

/-- `numpy.zeros((n, n))`. -/
def zerosGrid (n : ℕ) : List (List ℚ) := List.replicate n (List.replicate n 0)

/-- Read entry `(i, j)` of a matrix stored as rows, defaulting to 0. -/
def getEntry (m : List (List ℚ)) (i j : ℕ) : ℚ := (m.getD i []).getD j 0

/-- Write entry `(i, j)` of a matrix stored as rows (no-op out of range,
which the reachable calls never are). -/
def setEntry (m : List (List ℚ)) (i j : ℕ) (v : ℚ) : List (List ℚ) :=
  m.set i ((m.getD i []).set j v)

/-- Python `list.pop(0)`: first element and remainder, `IndexError` on an
empty list. -/
def popHead : List ℚ → Except PyErr (ℚ × List ℚ)
  | [] => .error .indexError
  | c :: t => .ok (c, t)

/-- Python string subscript `s[k]`, `IndexError` past the end. -/
def charAt (s : String) (k : ℕ) : Except PyErr Char :=
  match s.toList.get? k with
  | some c => .ok c
  | none => .error .indexError

/-- Message of the `ValueError` that Python `int()` raises on a
non-numeric string. -/
def invalidLitMsg : String := "invalid literal for int with base 10"

/-- Python `int(c)` for a single character: its digit value, or the
`ValueError` that `int` raises on a non-digit. -/
def pyIntChar (c : Char) : Except PyErr ℕ :=
  if c.isDigit then .ok (c.toNat - 48) else .error (.valueError invalidLitMsg)

/-- The index parsing `int(coef_name[0]), int(coef_name[2])` done by the
coefficient loop of `fit_wcs_from_points` (source lines 268-270). -/
def parseIJ (nm : String) : Except PyErr (ℕ × ℕ) :=
  match charAt nm 0 with
  | .error e => .error e
  | .ok c0 =>
    match pyIntChar c0 with
    | .error e => .error e
    | .ok i =>
      match charAt nm 2 with
      | .error e => .error e
      | .ok c2 =>
        match pyIntChar c2 with
        | .error e => .error e
        | .ok j => .ok (i, j)

/-- The coefficient loop of `fit_wcs_from_points` (source lines 268-270):
for each name, pop the next A coefficient, parse the grid indices from the
name, store it, then the same for the B coefficient. -/
def fillGrids :
    List String → List (List ℚ) → List (List ℚ) → List ℚ → List ℚ →
    Except PyErr (List (List ℚ) × List (List ℚ))
  | [], a, b, _, _ => .ok (a, b)
  | nm :: rest, a, b, ca, cb =>
    match popHead ca with
    | .error e => .error e
    | .ok (av, ca') =>
      match parseIJ nm with
      | .error e => .error e
      | .ok (i, j) =>
        match popHead cb with
        | .error e => .error e
        | .ok (bv, cb') =>
          match parseIJ nm with
          | .error e => .error e
          | .ok (i', j') =>
            fillGrids rest (setEntry a i j av) (setEntry b i' j' bv) ca' cb'

/-- The SIP coefficient names of `fit_wcs_from_points` (source lines
250-252): strings `i_j` for `i, j` in `range(degree+1)` with
`i+j < degree+1` and `i+j > 1`. -/
def coef_names (degree : ℤ) : List String :=
  (List.range (degree + 1).toNat).flatMap fun i =>
    (List.range (degree + 1).toNat).filterMap fun j =>
      if i + j < (degree + 1).toNat ∧ i + j > 1 then
        some (toString i ++ "_" ++ toString j)
      else none

/-- The 27 projection codes accepted by `fit_wcs_from_points` (source
lines 184-188). -/
def proj_codes : List String :=
  ["AZP", "SZP", "TAN", "STG", "SIN", "ARC", "ZEA", "AIR", "CYP",
   "CEA", "CAR", "MER", "SFL", "PAR", "MOL", "AIT", "COP", "COE",
   "COD", "COO", "BON", "PCO", "TSC", "CSC", "QSC", "HPX", "XPH"]

/-- Message of the `ValueError` raised for a bad `proj_point` (source
lines 178-180). -/
def projPointMsg : String :=
  "proj_point must be set to center, or an SkyCoord object with a pair of points."

/-- Message of the `ValueError` raised for an unrecognized projection
code (source lines 191-192). -/
def projCodeMsg : String :=
  "Must specify valid projection code from list of supported types"

/-- Message of the `ValueError` raised for a bad `sip_degree` (source
line 207). -/
def sipDegreeMsg : String := "sip_degree must be None, or integer."

/-- `astropy.wcs.utils.celestial_frame_to_wcs` for a two-axis celestial
frame: a fresh WCS whose type codes carry the projection, with unit
coordinate increments and an identity linear matrix (the `has_pc` branch
of source lines 202-204 rewrites the default PC matrix into `cd`). -/
def celestial_frame_to_wcs (projection : String) : Wcs :=
  { ctype := ["RA---" ++ projection, "DEC--" ++ projection]
    crval := [0, 0]
    crpix := [0, 0]
    cd := [1, 0, 0, 1]
    cdelt := [1, 1]
    sip := none
    pixel_shape := none }

/-- Validation of `proj_point` (source lines 177-182): a `ValueError` for
a value that is neither the center literal nor a SkyCoord, then an
`assert` that the SkyCoord holds exactly one point. -/
def validate_proj_point : ProjPointArg → Except PyErr Unit
  | .center => .ok ()
  | .sky n _ _ => if n = 1 then .ok () else .error .assertionError
  | .other => .error (.valueError projPointMsg)

/-- The projection dispatch (source lines 189-199): a string code must be
in `proj_codes` and yields the empty frame WCS; a template WCS object hits
`copy.deepcopy` with the `copy` module never imported, a `NameError`. -/
def build_wcs : ProjArg → Except PyErr Wcs
  | .code s =>
      if s ∈ proj_codes then .ok (celestial_frame_to_wcs s)
      else .error (.valueError projCodeMsg)
  | .wcsObj _ => .error (.nameError "copy")

/-- Validation of `sip_degree` (source lines 206-207): anything that is
neither `None` nor an `int` raises a `ValueError`. -/
def validate_sip_degree : SipDegreeArg → Except PyErr Unit
  | .otherArg => .error (.valueError sipDegreeMsg)
  | _ => .ok ()

/-- The numerical collaborators of `fit_wcs_from_points`, supplied per
call: the great-circle midpoint construction of source lines 215-219 and
the two `scipy.optimize.least_squares` invocations, each returning the
fitted parameter vector `fit.x`. -/
structure Oracles where
  midpoint : ℚ → ℚ → ℚ → ℚ → ℚ × ℚ
  linFit : List ℚ → ℚ × ℚ × ℚ × ℚ → List ℚ → List ℚ → List ℚ → List ℚ → List ℚ
  sipFit : List ℚ → List ℚ → List ℚ → List ℚ → List ℚ → ℤ → List String → List ℚ

/-- The crval determination and initial crpix guess of
`fit_wcs_from_points` (source lines 213-226). -/
def crval_crpix_guess (wcs1 : Wcs) (proj_point : ProjPointArg)
    (xp yp lon _lat : List ℚ) (o : Oracles) : Wcs :=
  match proj_point with
  | .center =>
      let mid := o.midpoint (pyMin lon) (pyMax _lat) (pyMax lon) (pyMin _lat)
      { wcs1 with
        crval := [mid.1, mid.2]
        crpix := [(pyMax xp + pyMin xp) / 2, (pyMax yp + pyMin yp) / 2] }
  | .sky _ plon plat =>
      -- the frame conversion on source line 223 discards its result;
      -- note source line 226 subtracts crval[1] from lon, not lat
      { wcs1 with
        crval := [plon, plat]
        crpix := [close (lon.map (· - plon)) xp,
                  close (lon.map (· - plat)) yp] }
  | .other => wcs1

/-- The linear fitting stage of `fit_wcs_from_points` (source lines
231-242): initial parameters from the current cd and crpix, crpix bounds
from the pixel extent (expanded by one half when degenerate), the solver
call, and the write-back of the fitted crpix and cd. -/
def linear_stage (wcs2 : Wcs) (xp yp lon lat : List ℚ) (o : Oracles) : Wcs :=
  let p0 := wcs2.cd ++ wcs2.crpix
  let xpmin := pyMin xp
  let xpmax := pyMax xp
  let ypmin := pyMin yp
  let ypmax := pyMax yp
  let xpmin' := if xpmin = xpmax then xpmin - 1/2 else xpmin
  let xpmax' := if xpmin = xpmax then xpmax + 1/2 else xpmax
  let ypmin' := if ypmin = ypmax then ypmin - 1/2 else ypmin
  let ypmax' := if ypmin = ypmax then ypmax + 1/2 else ypmax
  let fitx := o.linFit p0 (xpmin', xpmax', ypmin', ypmax') lon lat xp yp
  { wcs2 with crpix := (fitx.drop 4).take 2, cd := fitx.take 4 }

/-- The SIP fitting stage of `fit_wcs_from_points` (source lines
245-273): append `-SIP` to the type codes when absent, enumerate the
coefficient names, run the second solver call, write back cd and crpix,
and fill the coefficient grids. -/
def sip_stage (wcs3 : Wcs) (degree : ℤ) (xp yp lon lat : List ℚ) (o : Oracles) :
    Except PyErr Wcs :=
  -- source lines 247-248: append -SIP to the type codes
  let wcs4 :=
    if strContains (wcs3.ctype.headD "") "-SIP" then wcs3
    else { wcs3 with ctype := wcs3.ctype.map (· ++ "-SIP") }
  let names := coef_names degree
  -- source lines 253-257: initial parameters and the SIP fit
  let p1 := wcs4.crpix ++ wcs4.cd ++ List.replicate (2 * names.length) 0
  let fit2 := o.sipFit p1 lon lat xp yp degree names
  let acoefs := (fit2.drop 6).take names.length
  let bcoefs := fit2.drop (6 + names.length)
  -- source lines 262-263: write the fitted cd and crpix back
  let wcs5 := { wcs4 with cd := (fit2.drop 2).take 4, crpix := fit2.take 2 }
  let n1 := (degree + 1).toNat
  -- source lines 265-273: fill the coefficient grids and attach them
  match fillGrids names (zerosGrid n1) (zerosGrid n1) acoefs bcoefs with
  | .error e => .error e
  | .ok (aVals, bVals) =>
      let sp := SipCoeffs.mk aVals bVals (zerosGrid n1) (zerosGrid n1) wcs5.crpix
      .ok { wcs5 with sip := some sp }

/-- Shallow embedding of `fit_wcs_from_points` (source lines 103-275).
Pixel and sky coordinate extraction from the input objects is assumed
done (`xp`, `yp`, `lon`, `lat`); the least-squares solver and spherical
midpoint are the `o` oracles. -/
def fit_wcs_from_points (xp yp lon lat : List ℚ) (proj_point : ProjPointArg)
    (projection : ProjArg) (sip_degree : SipDegreeArg) (o : Oracles) :
    Except PyErr Wcs :=
  match validate_proj_point proj_point with
  | .error e => .error e
  | .ok _ =>
    match build_wcs projection with
    | .error e => .error e
    | .ok wcs0 =>
      match validate_sip_degree sip_degree with
      | .error e => .error e
      | .ok _ =>
        -- source line 210: pixel_shape from the span of the input points
        let wcs1 := { wcs0 with
          pixel_shape := some (pyMax xp + 1 - pyMin xp, pyMax yp + 1 - pyMin yp) }
        let wcs2 := crval_crpix_guess wcs1 proj_point xp yp lon lat o
        let wcs3 := linear_stage wcs2 xp yp lon lat o
        if sipTruthy sip_degree then
          sip_stage wcs3 (match sip_degree with | .intArg n => n | _ => 0) xp yp lon lat o
        else
          .ok wcs3

/-- The two sequential masked corrections applied to the residual vector
in `_linear_wcs_fit` (source lines 46-47) and `_sip_fit` (lines 96-97):
first entries above 180 become 360 minus themselves, then entries below
-180 become 360 plus themselves. -/
def wrapResids (rs : List ℚ) : List ℚ :=
  (rs.map fun r => if 180 < r then 360 - r else r).map
    fun r => if r < -180 then 360 + r else r

/-- The pointwise composition of the two masked corrections. -/
def wrapOne (r : ℚ) : ℚ :=
  (fun s => if s < -180 then 360 + s else s) (if 180 < r then 360 - r else r)

/-- The residual vector of `_linear_wcs_fit` (source lines 45-49), with
`lon2`, `lat2` the sky predictions `w.wcs_pix2world(x, y, 0)` of the
candidate WCS. -/
def linear_wcs_fit_resids (lon lat lon2 lat2 : List ℚ) : List ℚ :=
  wrapResids (List.zipWith (· - ·) lon lon2 ++ List.zipWith (· - ·) lat lat2)

/-- The residual vector of `_sip_fit` (source lines 94-97), with `x`, `y`
the linear-stage intermediate coordinates of the true pixel positions and
`xo`, `yo` the SIP-distorted predictions. -/
def sip_fit_resids (x y xo yo : List ℚ) : List ℚ :=
  wrapResids (List.zipWith (· - ·) x xo ++ List.zipWith (· - ·) y yo)

/-- A concrete oracle assignment: the midpoint at the origin, a linear
solver returning an identity CD matrix with zero reference pixel, and a
SIP solver returning its initial guess unchanged (hence of the same
length). -/
def trivOracles : Oracles :=
  { midpoint := fun _ _ _ _ => (0, 0)
    linFit := fun _ _ _ _ _ _ => [1, 0, 0, 1, 0, 0]
    sipFit := fun p _ _ _ _ _ _ => p }

/-- The identity oracle assignment: both solvers return their initial
guess, hence a parameter vector of the same length. -/
def idOracles : Oracles :=
  { midpoint := fun _ _ _ _ => (0, 0)
    linFit := fun p _ _ _ _ _ => p
    sipFit := fun p _ _ _ _ _ _ => p }

/-- Canonical name `i_j` of a SIP coefficient index pair. -/
def pairName (p : ℕ × ℕ) : String := toString p.1 ++ "_" ++ toString p.2

/-- The index pairs `(i, j)` with `2 <= i + j <= degree`, enumerated in
the order of the source comprehension. -/
def sipPairs (degree : ℤ) : List (ℕ × ℕ) :=
  (List.range (degree + 1).toNat).flatMap fun i =>
    (List.range (degree + 1).toNat).filterMap fun j =>
      if i + j < (degree + 1).toNat ∧ i + j > 1 then some (i, j) else none

/-- One axis of a cutout size request: a pixel count or an angular extent
in degrees. -/
inductive CutoutSizeAxis where
  | pix (q : ℚ)
  | deg (q : ℚ)
deriving DecidableEq, Repr

/-- Modelled from the spec: the size normalization of the cutout geometry
engine (module `cutouts`, function `_get_cutout_limits`, not under the
provided sources).  A pixel request is used directly, rounded to the
nearest integer; an angular request is divided by the local per-axis
pixel scale in degrees per pixel, and the spec requirement that a 0.1
degree request at 1 degree per pixel yield an extent of exactly 1 pixel
forces the conversion to round up. -/
def sizeToPixels (scale : ℚ) : CutoutSizeAxis → ℤ
  | .pix q => round q
  | .deg q => ⌈q / scale⌉

/-- Modelled from the spec: `cutouts._get_cutout_limits`, not under the
provided sources.  The center sky position has already been converted to
fractional zero-indexed pixel coordinates `center` by the world-to-pixel
collaborator; `scale` is the local pixel scale per axis.  Each axis gets
`lower = floor(center - dim/2)` and `upper = lower + dim`, with no
clipping to the image bounds; the floor convention at half-pixel
boundaries is the one that reproduces the literal limit values of the
repository tests. -/
def get_cutout_limits (center scale : ℚ × ℚ)
    (size : CutoutSizeAxis × CutoutSizeAxis) : (ℤ × ℤ) × (ℤ × ℤ) :=
  let d0 := sizeToPixels scale.1 size.1
  let d1 := sizeToPixels scale.2 size.2
  let l0 := ⌊center.1 - (d0 : ℚ) / 2⌋
  let l1 := ⌊center.2 - (d1 : ℚ) / 2⌋
  ((l0, l0 + d0), (l1, l1 + d1))

/-- Modelled from the spec: `cutouts._get_cutout_wcs`, not under the
provided sources.  A deep copy of the source WCS with the reference pixel
shifted by the lower limit of each axis and every other field unchanged. -/
def get_cutout_wcs (w : Wcs) (lims : (ℤ × ℤ) × (ℤ × ℤ)) : Wcs :=
  { w with crpix := [w.crpix.getD 0 0 - (lims.1.1 : ℚ),
                     w.crpix.getD 1 0 - (lims.2.1 : ℚ)] }

/-! ### Supporting lemmas -/

instance {ε α : Type} [DecidableEq ε] [DecidableEq α] : DecidableEq (Except ε α) := fun a b =>
  match a, b with
  | .error x, .error y =>
      if h : x = y then .isTrue (by rw [h]) else .isFalse (by simp [h])
  | .ok x, .ok y =>
      if h : x = y then .isTrue (by rw [h]) else .isFalse (by simp [h])
  | .error _, .ok _ => .isFalse (by simp)
  | .ok _, .error _ => .isFalse (by simp)

theorem parseIJ_pairName {i j : ℕ} (hi : i ≤ 9) (hj : j ≤ 9) :
    parseIJ (pairName (i, j)) = .ok (i, j) := by
  interval_cases i <;> interval_cases j <;> decide

theorem coef_names_eq_map (degree : ℤ) :
    coef_names degree = (sipPairs degree).map pairName := by
  simp [coef_names, sipPairs, List.map_flatMap, List.map_filterMap, apply_ite, pairName]

theorem mem_sipPairs {degree : ℤ} (hd : 0 ≤ degree) (i j : ℕ) :
    (i, j) ∈ sipPairs degree ↔ 2 ≤ i + j ∧ (i : ℤ) + (j : ℤ) ≤ degree := by
  simp only [sipPairs, List.mem_flatMap, List.mem_filterMap, List.mem_range,
    Option.ite_none_right_eq_some, Option.some.injEq, Prod.mk.injEq]
  constructor
  · rintro ⟨a, ha, b, hb, ⟨hlt, hgt⟩, rfl, rfl⟩
    omega
  · rintro ⟨h2, hD⟩
    exact ⟨i, by omega, j, by omega, ⟨by omega, by omega⟩, rfl, rfl⟩

theorem listGetD_set_ne {α : Type} (l : List α) (i p : ℕ) (a : α) (d : α)
    (h : p ≠ i) : (l.set i a).getD p d = l.getD p d := by
  simp [List.getD_eq_getElem?_getD, List.getElem?_set_ne (Ne.symm h)]

theorem getEntry_zerosGrid (n p q : ℕ) : getEntry (zerosGrid n) p q = 0 := by
  simp only [getEntry, zerosGrid, List.getD_eq_getElem?_getD, List.getElem?_replicate]
  rcases lt_or_le p n with h | h
  · rcases lt_or_le q n with h' | h' <;> simp [h, h']
  · simp [Nat.not_lt.mpr h]

theorem getEntry_setEntry_ne (m : List (List ℚ)) (i j p q : ℕ) (v : ℚ)
    (h : p ≠ i ∨ q ≠ j) : getEntry (setEntry m i j v) p q = getEntry m p q := by
  unfold getEntry setEntry
  rcases eq_or_ne p i with rfl | hpi
  · have hqj : q ≠ j := h.resolve_left (by simp)
    rcases lt_or_le p m.length with hp | hp
    · have hset : (m.set p ((m.getD p []).set j v)).getD p [] = (m.getD p []).set j v := by
        simp [List.getD_eq_getElem?_getD, List.getElem?_set_self hp]
      rw [hset, listGetD_set_ne _ _ _ _ _ hqj]
    · have hset : m.set p ((m.getD p []).set j v) = m := List.set_eq_of_length_le hp
      rw [hset]
  · rw [listGetD_set_ne _ _ _ _ _ hpi]


theorem length_setEntry (m : List (List ℚ)) (i j : ℕ) (v : ℚ) :
    (setEntry m i j v).length = m.length := by
  simp [setEntry]

theorem rowLen_setEntry (m : List (List ℚ)) (i j k : ℕ) (v : ℚ) :
    ((setEntry m i j v).getD k []).length = ((m.getD k []).length) := by
  unfold setEntry
  rcases eq_or_ne k i with rfl | h
  · rcases lt_or_le k m.length with hk | hk
    · simp [List.getD_eq_getElem?_getD, List.getElem?_set_self hk]
    · rw [List.set_eq_of_length_le hk]
  · rw [listGetD_set_ne _ _ _ _ _ h]

theorem charAt_error {s : String} {k : ℕ} {e : PyErr} (h : charAt s k = .error e) :
    e = .indexError := by
  unfold charAt at h
  split at h <;> simp_all

theorem pyIntChar_error {c : Char} {e : PyErr} (h : pyIntChar c = .error e) :
    e = .valueError invalidLitMsg := by
  unfold pyIntChar at h
  split at h <;> simp_all

theorem popHead_error {l : List ℚ} {e : PyErr} (h : popHead l = .error e) :
    e = .indexError := by
  cases l <;> simp_all [popHead]

theorem parseIJ_error {nm : String} {e : PyErr} (h : parseIJ nm = .error e) :
    e = .indexError ∨ e = .valueError invalidLitMsg := by
  rcases h0 : charAt nm 0 with e0 | c0
  · simp only [parseIJ, h0] at h
    injection h with h
    subst h
    exact .inl (charAt_error h0)
  · rcases h1 : pyIntChar c0 with e1 | i
    · simp only [parseIJ, h0, h1] at h
      injection h with h
      subst h
      exact .inr (pyIntChar_error h1)
    · rcases h2 : charAt nm 2 with e2 | c2
      · simp only [parseIJ, h0, h1, h2] at h
        injection h with h
        subst h
        exact .inl (charAt_error h2)
      · rcases h3 : pyIntChar c2 with e3 | j
        · simp only [parseIJ, h0, h1, h2, h3] at h
          injection h with h
          subst h
          exact .inr (pyIntChar_error h3)
        · simp [parseIJ, h0, h1, h2, h3] at h

theorem fillGrids_error (names : List String) :
    ∀ (a b : List (List ℚ)) (ca cb : List ℚ) (e : PyErr),
      fillGrids names a b ca cb = .error e →
      e = .indexError ∨ e = .valueError invalidLitMsg := by
  induction names with
  | nil => intro a b ca cb e h; simp [fillGrids] at h
  | cons nm rest ih =>
    intro a b ca cb e h
    rcases h1 : popHead ca with e1 | ⟨av, ca'⟩
    · simp only [fillGrids, h1] at h
      injection h with h
      subst h
      exact .inl (popHead_error h1)
    · rcases h2 : parseIJ nm with e2 | ⟨i, j⟩
      · simp only [fillGrids, h1, h2] at h
        injection h with h
        subst h
        exact parseIJ_error h2
      · rcases h3 : popHead cb with e3 | ⟨bv, cb'⟩
        · simp only [fillGrids, h1, h2, h3] at h
          injection h with h
          subst h
          exact .inl (popHead_error h3)
        · simp only [fillGrids, h1, h2, h3] at h
          exact ih _ _ _ _ _ h

theorem fillGrids_ok (P : ℕ → ℕ → Prop) (names : List String) :
    ∀ (a b : List (List ℚ)) (ca cb : List ℚ),
      (∀ nm ∈ names, ∃ i j, parseIJ nm = .ok (i, j) ∧ P i j) →
      ca.length = names.length → cb.length = names.length →
      ∃ a' b', fillGrids names a b ca cb = .ok (a', b') ∧
        a'.length = a.length ∧ b'.length = b.length ∧
        (∀ k, ((a'.getD k []).length = (a.getD k []).length) ∧
              ((b'.getD k []).length = (b.getD k []).length)) ∧
        (∀ p q, (∀ i j, P i j → p ≠ i ∨ q ≠ j) →
          getEntry a' p q = getEntry a p q ∧ getEntry b' p q = getEntry b p q) := by
  induction names with
  | nil =>
    intro a b ca cb _ _ _
    exact ⟨a, b, rfl, rfl, rfl, fun k => ⟨rfl, rfl⟩, fun p q _ => ⟨rfl, rfl⟩⟩
  | cons nm rest ih =>
    intro a b ca cb hP hca hcb
    obtain ⟨i, j, hij, hPij⟩ := hP nm (by simp)
    rcases ca with _ | ⟨av, ca'⟩
    · simp at hca
    rcases cb with _ | ⟨bv, cb'⟩
    · simp at hcb
    obtain ⟨a', b', hfill, hla, hlb, hrow, hpres⟩ :=
      ih (setEntry a i j av) (setEntry b i j bv) ca' cb'
        (fun nm' h => hP nm' (by simp [h]))
        (by simpa using hca) (by simpa using hcb)
    refine ⟨a', b', ?_, ?_, ?_, ?_, ?_⟩
    · simp only [fillGrids, popHead, hij]
      exact hfill
    · rw [hla, length_setEntry]
    · rw [hlb, length_setEntry]
    · intro k
      exact ⟨by rw [(hrow k).1, rowLen_setEntry], by rw [(hrow k).2, rowLen_setEntry]⟩
    · intro p q hne
      obtain ⟨h1, h2⟩ := hpres p q hne
      exact ⟨by rw [h1, getEntry_setEntry_ne _ _ _ _ _ _ (hne i j hPij)],
             by rw [h2, getEntry_setEntry_ne _ _ _ _ _ _ (hne i j hPij)]⟩



/-- C1: for every source WCS and every 2x2 integer pixel-limits array,
including limits with negative entries, the cutout WCS keeps crval
exactly, shifts each crpix component by the lower limit of its axis, and
leaves every other WCS field unchanged. -/
theorem cutout_wcs_shifts_crpix_only (ct : List String) (cv : List ℚ) (c0 c1 : ℚ)
    (cd cdelt : List ℚ) (sp : Option SipCoeffs) (ps : Option (ℚ × ℚ))
    (lims : (ℤ × ℤ) × (ℤ × ℤ)) :
    (get_cutout_wcs (Wcs.mk ct cv [c0, c1] cd cdelt sp ps) lims).crval = cv ∧
    (get_cutout_wcs (Wcs.mk ct cv [c0, c1] cd cdelt sp ps) lims).crpix
      = [c0 - (lims.1.1 : ℚ), c1 - (lims.2.1 : ℚ)] ∧
    (get_cutout_wcs (Wcs.mk ct cv [c0, c1] cd cdelt sp ps) lims).ctype = ct ∧
    (get_cutout_wcs (Wcs.mk ct cv [c0, c1] cd cdelt sp ps) lims).cd = cd ∧
    (get_cutout_wcs (Wcs.mk ct cv [c0, c1] cd cdelt sp ps) lims).cdelt = cdelt ∧
    (get_cutout_wcs (Wcs.mk ct cv [c0, c1] cd cdelt sp ps) lims).sip = sp ∧
    (get_cutout_wcs (Wcs.mk ct cv [c0, c1] cd cdelt sp ps) lims).pixel_shape = ps := by
  simp [get_cutout_wcs]

/-- C2: the pixel limits always have extents equal to the requested
pixel size per axis; in particular a pixel request of 10 and 5 gives
extents 10 and 5, an angular request of 0.1 degree at 1 degree per pixel
gives extent exactly 1, and 4 and 5 degrees give extents 4 and 5. -/
theorem cutout_limits_extents (center scale : ℚ × ℚ)
    (size : CutoutSizeAxis × CutoutSizeAxis) :
    ((get_cutout_limits center scale size).1.2 - (get_cutout_limits center scale size).1.1
        = sizeToPixels scale.1 size.1 ∧
     (get_cutout_limits center scale size).2.2 - (get_cutout_limits center scale size).2.1
        = sizeToPixels scale.2 size.2) ∧
    (sizeToPixels 1 (.pix 10) = 10 ∧ sizeToPixels 1 (.pix 5) = 5) ∧
    (sizeToPixels 1 (.deg (1/10)) = 1) ∧
    (sizeToPixels 1 (.deg 4) = 4 ∧ sizeToPixels 1 (.deg 5) = 5) := by
  refine ⟨⟨by simp [get_cutout_limits], by simp [get_cutout_limits]⟩, ?_, ?_, ?_⟩
  · constructor <;> norm_num [sizeToPixels]
  · simp only [sizeToPixels]
    rw [Int.ceil_eq_iff]
    norm_num
  · constructor <;> norm_num [sizeToPixels]

/-- C4: the pixel-limits computation never clips to the image bounds and
never fails on geometric edge cases: whenever the center pixel of an axis
lies below half the requested extent, the returned lower bound of that
axis is negative, and the extent is still the full requested size. -/
theorem cutout_limits_no_clipping (center scale : ℚ × ℚ)
    (size : CutoutSizeAxis × CutoutSizeAxis) :
    (2 * center.1 < (sizeToPixels scale.1 size.1 : ℚ) →
        (get_cutout_limits center scale size).1.1 < 0) ∧
    (2 * center.2 < (sizeToPixels scale.2 size.2 : ℚ) →
        (get_cutout_limits center scale size).2.1 < 0) ∧
    ((get_cutout_limits center scale size).1.2 - (get_cutout_limits center scale size).1.1
        = sizeToPixels scale.1 size.1) := by
  refine ⟨fun h => ?_, fun h => ?_, by simp [get_cutout_limits]⟩
  · simp only [get_cutout_limits]
    rw [show (0 : ℤ) = ((0 : ℤ)) from rfl, Int.floor_lt]
    push_cast
    linarith
  · simp only [get_cutout_limits]
    rw [Int.floor_lt]
    push_cast
    linarith

/-- Witness for C4 at a concrete center below the lower edge. -/
theorem cutout_limits_no_clipping_w :
    (2 * (-2 : ℚ) < ((sizeToPixels 1 (.pix 5) : ℤ) : ℚ)) ∧
    (get_cutout_limits (9, -2) (1, 1) (.pix 4, .pix 5)).2.1 < 0 :=
  ⟨by norm_num [sizeToPixels], (cutout_limits_no_clipping (9, -2) (1, 1) (.pix 4, .pix 5)).2.1
      (by norm_num [sizeToPixels])⟩



/-- C3 counterexample: a longitude residual of 359 is corrected to 1,
not to 359 - 360 = -1 as the claim states. -/
theorem resid_wrap_not_subtract_360 :
    linear_wcs_fit_resids [(719 : ℚ)/2] [0] [1/2] [0] = [1, 0] ∧
    linear_wcs_fit_resids [(719 : ℚ)/2] [0] [1/2] [0] ≠ [(719 : ℚ)/2 - 1/2 - 360, 0 - 0] := by
  constructor
  · norm_num [linear_wcs_fit_resids, wrapResids]
  · norm_num [linear_wcs_fit_resids, wrapResids]

theorem wrapResids_eq_map (l : List ℚ) : wrapResids l = l.map wrapOne := by
  simp only [wrapResids, List.map_map]
  rfl

/-- C3 amended: in both least-squares stages the whole concatenated
residual vector, longitude and latitude entries alike, is corrected
pointwise: an entry above 180 becomes 360 minus itself (not itself minus
360), and an entry below -180 becomes 360 plus itself. -/
theorem resid_wrap_amended :
    (∀ lon lat lon2 lat2 : List ℚ, linear_wcs_fit_resids lon lat lon2 lat2 =
       (List.zipWith (· - ·) lon lon2 ++ List.zipWith (· - ·) lat lat2).map wrapOne) ∧
    (∀ x y xo yo : List ℚ, sip_fit_resids x y xo yo =
       (List.zipWith (· - ·) x xo ++ List.zipWith (· - ·) y yo).map wrapOne) ∧
    (∀ r : ℚ, 180 < r → r ≤ 540 → wrapOne r = 360 - r) ∧
    (∀ r : ℚ, -540 ≤ r → r < -180 → wrapOne r = 360 + r) ∧
    (∀ r : ℚ, -180 ≤ r → r ≤ 180 → wrapOne r = r) := by
  refine ⟨?_, ?_, ?_, ?_, ?_⟩
  · intro lon lat lon2 lat2
    rw [linear_wcs_fit_resids, wrapResids_eq_map]
  · intro x y xo yo
    rw [sip_fit_resids, wrapResids_eq_map]
  · intro r h1 h2
    simp only [wrapOne]
    split_ifs <;> linarith
  · intro r h1 h2
    simp only [wrapOne]
    split_ifs <;> linarith
  · intro r h1 h2
    simp only [wrapOne]
    split_ifs <;> linarith

/-- Witness for C3 amended at concrete residual values. -/
theorem resid_wrap_amended_w :
    linear_wcs_fit_resids [200] [0] [0] [0] = [wrapOne 200, wrapOne 0] ∧
    wrapOne (200 : ℚ) = 360 - 200 ∧ wrapOne (-200 : ℚ) = 360 + -200 ∧
    wrapOne (100 : ℚ) = 100 :=
  ⟨by rw [resid_wrap_amended.1 [200] [0] [0] [0]]; norm_num,
   resid_wrap_amended.2.2.1 200 (by norm_num) (by norm_num),
   resid_wrap_amended.2.2.2.1 (-200) (by norm_num) (by norm_num),
   resid_wrap_amended.2.2.2.2 100 (by norm_num) (by norm_num)⟩



theorem sip_stage_error_shape (wcs3 : Wcs) (degree : ℤ) (xp yp lon lat : List ℚ)
    (o : Oracles) (e : PyErr) (h : sip_stage wcs3 degree xp yp lon lat o = .error e) :
    e = .indexError ∨ e = .valueError invalidLitMsg := by
  unfold sip_stage at h
  split at h <;> dsimp only at h <;> split at h
  all_goals
    first
      | (injection h with h
         subst h
         exact fillGrids_error _ _ _ _ _ _ (by assumption))
      | simp at h

/-- C10: calling fit_wcs_from_points with sip_degree equal to the
integer 0 returns exactly the same result as calling it with None: the
SIP stage is skipped for both and only the linear fit is returned. -/
theorem sip_zero_same_as_none (xp yp lon lat : List ℚ) (pp : ProjPointArg)
    (pr : ProjArg) (o : Oracles) :
    fit_wcs_from_points xp yp lon lat pp pr (.intArg 0) o =
    fit_wcs_from_points xp yp lon lat pp pr .noneArg o := rfl

/-- C8: passing a template WCS object as the projection argument always
raises NameError for the never-imported module named copy, instead of
refitting a deep copy of the template as documented. -/
theorem template_wcs_raises_name_error (w : Wcs) (xp yp lon lat : List ℚ)
    (sd : SipDegreeArg) (o : Oracles) :
    fit_wcs_from_points xp yp lon lat .center (.wcsObj w) sd o
      = .error (.nameError "copy") := rfl



/-- C7 counterexample: a SkyCoord proj_point holding two points fails
with AssertionError, which is not a ValueError-class error. -/
theorem multi_point_sky_not_value_error :
    fit_wcs_from_points [0] [0] [0] [0] (.sky 2 0 0) (.code "TAN") .noneArg trivOracles
      = .error .assertionError ∧ PyErr.assertionError.isValueError = false := ⟨rfl, rfl⟩

/-- C7 amended: a proj_point that is neither the center literal nor a
SkyCoord raises ValueError; a SkyCoord whose size is not 1 fails with
AssertionError, which is not of the ValueError class; the center literal
and a single-point SkyCoord are accepted. -/
theorem proj_point_validation :
    (∀ (xp yp lon lat : List ℚ) (pr : ProjArg) (sd : SipDegreeArg) (o : Oracles),
        fit_wcs_from_points xp yp lon lat .other pr sd o = .error (.valueError projPointMsg)) ∧
    (∀ (xp yp lon lat : List ℚ) (pr : ProjArg) (sd : SipDegreeArg) (o : Oracles)
        (n : ℕ) (plon plat : ℚ), n ≠ 1 →
        fit_wcs_from_points xp yp lon lat (.sky n plon plat) pr sd o = .error .assertionError) ∧
    (PyErr.assertionError.isValueError = false) ∧
    (∀ (xp yp lon lat : List ℚ) (plon plat : ℚ) (o : Oracles), ∃ w,
        fit_wcs_from_points xp yp lon lat (.sky 1 plon plat) (.code "TAN") .noneArg o = .ok w) := by
  refine ⟨fun xp yp lon lat pr sd o => rfl, ?_, rfl, fun xp yp lon lat plon plat o => ⟨_, rfl⟩⟩
  intro xp yp lon lat pr sd o n plon plat hn
  simp only [fit_wcs_from_points, validate_proj_point, if_neg hn]

/-- Witness for C7 amended at a two-point SkyCoord. -/
theorem proj_point_validation_w :
    fit_wcs_from_points [0] [0] [0] [0] (.sky 2 0 0) (.code "SIN") .noneArg trivOracles
      = .error .assertionError :=
  proj_point_validation.2.1 [0] [0] [0] [0] (.code "SIN") .noneArg trivOracles 2 0 0 (by norm_num)



/-- C6 counterexample: sip_degree = -1, a negative integer, is accepted
and the call returns normally instead of raising ValueError. -/
theorem negative_sip_degree_accepted :
    (fit_wcs_from_points [0] [0] [0] [0] .center (.code "TAN") (.intArg (-1)) trivOracles).isOk
      = true := by decide

/-- C6 amended: sip_degree is accepted precisely when it is None or an
integer of any sign; only a value of any other type raises the
sip_degree ValueError. -/
theorem sip_degree_validation :
    (∀ (xp yp lon lat : List ℚ) (o : Oracles),
        fit_wcs_from_points xp yp lon lat .center (.code "TAN") .otherArg o
          = .error (.valueError sipDegreeMsg)) ∧
    (∀ (xp yp lon lat : List ℚ) (o : Oracles) (n : ℤ),
        fit_wcs_from_points xp yp lon lat .center (.code "TAN") (.intArg n) o
          ≠ .error (.valueError sipDegreeMsg)) ∧
    (∀ (xp yp lon lat : List ℚ) (o : Oracles), ∃ w,
        fit_wcs_from_points xp yp lon lat .center (.code "TAN") .noneArg o = .ok w) := by
  refine ⟨fun xp yp lon lat o => rfl, ?_, fun xp yp lon lat o => ⟨_, rfl⟩⟩
  intro xp yp lon lat o n hcontra
  have hb : build_wcs (ProjArg.code "TAN") = .ok (celestial_frame_to_wcs "TAN") := rfl
  simp only [fit_wcs_from_points, validate_proj_point, hb, validate_sip_degree] at hcontra
  by_cases hn : n = 0
  · subst hn
    simp [sipTruthy] at hcontra
  · have ht : sipTruthy (.intArg n) = true := by simp [sipTruthy, hn]
    rw [ht, if_pos rfl] at hcontra
    rcases sip_stage_error_shape _ _ _ _ _ _ _ _ hcontra with h | h <;> simp_all [invalidLitMsg, sipDegreeMsg]



/-- Witness for C6 amended at a rejected non-integer value and at the
negative integer -3. -/
theorem sip_degree_validation_w :
    fit_wcs_from_points [0] [0] [0] [0] .center (.code "TAN") .otherArg trivOracles
      = .error (.valueError sipDegreeMsg) ∧
    fit_wcs_from_points [0] [0] [0] [0] .center (.code "TAN") (.intArg (-3)) trivOracles
      ≠ .error (.valueError sipDegreeMsg) :=
  ⟨sip_degree_validation.1 [0] [0] [0] [0] trivOracles,
   sip_degree_validation.2.1 [0] [0] [0] [0] trivOracles (-3)⟩

/-- C5 counterexample: the recognized projection code list holds 27
distinct codes, not 26, and all 27 are accepted. -/
theorem proj_codes_count_27 :
    proj_codes.dedup.length = 27 ∧
    (proj_codes.all fun s =>
      (fit_wcs_from_points [0] [0] [0] [0] .center (.code s) .noneArg trivOracles).isOk) = true := by
  constructor
  · decide
  · decide

/-- C5 amended: a string projection argument is accepted if and only if
it is one of the 27 recognized three-letter codes, and any other string
raises ValueError before any solver call, for every oracle. -/
theorem projection_code_validation :
    proj_codes.dedup.length = 27 ∧
    (∀ (s : String) (xp yp lon lat : List ℚ) (sd : SipDegreeArg) (o : Oracles),
        s ∉ proj_codes →
        fit_wcs_from_points xp yp lon lat .center (.code s) sd o
          = .error (.valueError projCodeMsg)) ∧
    (∀ (s : String) (xp yp lon lat : List ℚ) (o : Oracles), s ∈ proj_codes →
        ∃ w, fit_wcs_from_points xp yp lon lat .center (.code s) .noneArg o = .ok w) := by
  refine ⟨by decide, ?_, ?_⟩
  · intro s xp yp lon lat sd o hs
    simp only [fit_wcs_from_points, validate_proj_point, build_wcs, if_neg hs]
  · intro s xp yp lon lat o hs
    simp only [fit_wcs_from_points, validate_proj_point, build_wcs, if_pos hs]
    exact ⟨_, rfl⟩

/-- Witness for C5 amended at a rejected and an accepted code. -/
theorem projection_code_validation_w :
    ("QQQ" ∉ proj_codes ∧
        fit_wcs_from_points [0] [0] [0] [0] .center (.code "QQQ") .noneArg trivOracles
          = .error (.valueError projCodeMsg)) ∧
    ("TAN" ∈ proj_codes ∧
        ∃ w, fit_wcs_from_points [0] [0] [0] [0] .center (.code "TAN") .noneArg trivOracles
          = .ok w) :=
  ⟨⟨by decide, projection_code_validation.2.1 "QQQ" [0] [0] [0] [0] .noneArg trivOracles (by decide)⟩,
   ⟨by decide, projection_code_validation.2.2 "TAN" [0] [0] [0] [0] trivOracles (by decide)⟩⟩



theorem sip_grids (D : ℤ) (hD1 : 1 ≤ D) (hD9 : D ≤ 9) (ca cb : List ℚ)
    (hca : ca.length = (coef_names D).length) (hcb : cb.length = (coef_names D).length) :
    ∃ a' b',
      fillGrids (coef_names D) (zerosGrid (D + 1).toNat) (zerosGrid (D + 1).toNat) ca cb
        = .ok (a', b') ∧
      a'.length = (D + 1).toNat ∧ b'.length = (D + 1).toNat ∧
      (∀ k, k < (D + 1).toNat →
        (a'.getD k []).length = (D + 1).toNat ∧ (b'.getD k []).length = (D + 1).toNat) ∧
      (∀ p q : ℕ, p + q < 2 ∨ (D : ℤ) < (p : ℤ) + (q : ℤ) →
        getEntry a' p q = 0 ∧ getEntry b' p q = 0) := by
  have hP : ∀ nm ∈ coef_names D, ∃ i j, parseIJ nm = .ok (i, j) ∧
      (2 ≤ i + j ∧ (i : ℤ) + (j : ℤ) ≤ D) := by
    rw [coef_names_eq_map]
    intro nm hnm
    obtain ⟨⟨i, j⟩, hmem, rfl⟩ := List.mem_map.mp hnm
    have hrange := (mem_sipPairs (by omega) i j).mp hmem
    exact ⟨i, j, parseIJ_pairName (by omega) (by omega), hrange⟩
  obtain ⟨a', b', hfill, hla, hlb, hrow, hpres⟩ :=
    fillGrids_ok (fun i j => 2 ≤ i + j ∧ (i : ℤ) + (j : ℤ) ≤ D) (coef_names D)
      (zerosGrid (D + 1).toNat) (zerosGrid (D + 1).toNat) ca cb hP hca hcb
  refine ⟨a', b', hfill, ?_, ?_, ?_, ?_⟩
  · rw [hla]; simp [zerosGrid]
  · rw [hlb]; simp [zerosGrid]
  · intro k hk
    constructor
    · rw [(hrow k).1]
      simp [zerosGrid, List.getD_eq_getElem?_getD, List.getElem?_replicate, hk]
    · rw [(hrow k).2]
      simp [zerosGrid, List.getD_eq_getElem?_getD, List.getElem?_replicate, hk]
  · intro p q hpq
    have hne : ∀ i j : ℕ, (2 ≤ i + j ∧ (i : ℤ) + (j : ℤ) ≤ D) → p ≠ i ∨ q ≠ j := by
      intro i j hij
      by_contra hc
      push_neg at hc
      obtain ⟨rfl, rfl⟩ := hc
      omega
    obtain ⟨h1, h2⟩ := hpres p q hne
    rw [h1, h2, getEntry_zerosGrid]
    exact ⟨rfl, rfl⟩



theorem codes_no_sip : ∀ s ∈ proj_codes, strContains ("RA---" ++ s) "-SIP" = false := by decide

theorem sip_stage_structure (wcs3 : Wcs) (D : ℤ) (hD1 : 1 ≤ D) (hD9 : D ≤ 9)
    (hct : strContains (wcs3.ctype.headD "") "-SIP" = false)
    (hcp : wcs3.crpix.length = 2) (hcd : wcs3.cd.length = 4)
    (xp yp lon lat : List ℚ) (o : Oracles)
    (hsip : ∀ p l l2 x y d ns, (o.sipFit p l l2 x y d ns).length = p.length) :
    ∃ w sp, sip_stage wcs3 D xp yp lon lat o = .ok w ∧ w.sip = some sp ∧
      w.ctype = wcs3.ctype.map (· ++ "-SIP") ∧
      sp.a.length = (D + 1).toNat ∧ sp.b.length = (D + 1).toNat ∧
      (∀ k, k < (D + 1).toNat →
        (sp.a.getD k []).length = (D + 1).toNat ∧ (sp.b.getD k []).length = (D + 1).toNat) ∧
      (∀ p q : ℕ, p + q < 2 ∨ (D : ℤ) < (p : ℤ) + (q : ℤ) →
        getEntry sp.a p q = 0 ∧ getEntry sp.b p q = 0) := by
  simp only [sip_stage, hct, Bool.false_eq_true, if_false]
  generalize hf2 : o.sipFit (wcs3.crpix ++ wcs3.cd ++ List.replicate (2 * (coef_names D).length) 0)
      lon lat xp yp D (coef_names D) = f2
  have hlen : f2.length = 6 + 2 * (coef_names D).length := by
    rw [← hf2, hsip]
    simp [hcp, hcd]
    omega
  obtain ⟨a', b', hfill, hla, hlb, hrow, hpres⟩ :=
    sip_grids D hD1 hD9 (List.take (coef_names D).length (List.drop 6 f2))
      (List.drop (6 + (coef_names D).length) f2)
      (by simp [hlen]; omega) (by simp [hlen]; omega)
  rw [hfill]
  exact ⟨_, _, rfl, rfl, rfl, hla, hlb, hrow, hpres⟩



/-- C9 amended: for sip_degree D between 1 and 9, the returned WCS has
-SIP appended to each projection type code, the coefficient names
enumerate exactly the index pairs (i, j) with i + j between 2 and D, and
the A and B grids are (D+1) by (D+1) matrices whose entries at index
pairs with i + j outside that band are zero.  For D of 10 or more the
call instead fails while parsing two-digit coefficient names. -/
theorem sip_structure_main (D : ℤ) (hD1 : 1 ≤ D) (hD9 : D ≤ 9) (s : String)
    (hs : s ∈ proj_codes) (xp yp lon lat : List ℚ) (o : Oracles)
    (hlin : ∀ p b l l2 x y, (o.linFit p b l l2 x y).length = p.length)
    (hsip : ∀ p l l2 x y d ns, (o.sipFit p l l2 x y d ns).length = p.length) :
    ∃ w sp, fit_wcs_from_points xp yp lon lat .center (.code s) (.intArg D) o = .ok w ∧
      w.sip = some sp ∧
      w.ctype = [("RA---" ++ s) ++ "-SIP", ("DEC--" ++ s) ++ "-SIP"] ∧
      coef_names D = (sipPairs D).map pairName ∧
      (∀ i j : ℕ, (i, j) ∈ sipPairs D ↔ 2 ≤ i + j ∧ (i : ℤ) + (j : ℤ) ≤ D) ∧
      sp.a.length = (D + 1).toNat ∧ sp.b.length = (D + 1).toNat ∧
      (∀ k, k < (D + 1).toNat →
        (sp.a.getD k []).length = (D + 1).toNat ∧ (sp.b.getD k []).length = (D + 1).toNat) ∧
      (∀ p q : ℕ, p + q < 2 ∨ (D : ℤ) < (p : ℤ) + (q : ℤ) →
        getEntry sp.a p q = 0 ∧ getEntry sp.b p q = 0) := by
  have hb : build_wcs (.code s) = .ok (celestial_frame_to_wcs s) := by
    simp [build_wcs, hs]
  have ht : sipTruthy (.intArg D) = true := by
    have hD0 : D ≠ 0 := by omega
    simp [sipTruthy, hD0]
  simp only [fit_wcs_from_points, validate_proj_point, hb, validate_sip_degree, ht, if_pos rfl]
  rw [if_pos trivial]
  have hct3 : (linear_stage (crval_crpix_guess
      { ctype := (celestial_frame_to_wcs s).ctype, crval := (celestial_frame_to_wcs s).crval,
        crpix := (celestial_frame_to_wcs s).crpix, cd := (celestial_frame_to_wcs s).cd,
        cdelt := (celestial_frame_to_wcs s).cdelt, sip := (celestial_frame_to_wcs s).sip,
        pixel_shape := some (pyMax xp + 1 - pyMin xp, pyMax yp + 1 - pyMin yp) }
      ProjPointArg.center xp yp lon lat o) xp yp lon lat o).ctype
      = ["RA---" ++ s, "DEC--" ++ s] := rfl
  have hcp3 : (linear_stage (crval_crpix_guess
      { ctype := (celestial_frame_to_wcs s).ctype, crval := (celestial_frame_to_wcs s).crval,
        crpix := (celestial_frame_to_wcs s).crpix, cd := (celestial_frame_to_wcs s).cd,
        cdelt := (celestial_frame_to_wcs s).cdelt, sip := (celestial_frame_to_wcs s).sip,
        pixel_shape := some (pyMax xp + 1 - pyMin xp, pyMax yp + 1 - pyMin yp) }
      ProjPointArg.center xp yp lon lat o) xp yp lon lat o).crpix.length = 2 := by
    simp [linear_stage, hlin, crval_crpix_guess, celestial_frame_to_wcs]
  have hcd3 : (linear_stage (crval_crpix_guess
      { ctype := (celestial_frame_to_wcs s).ctype, crval := (celestial_frame_to_wcs s).crval,
        crpix := (celestial_frame_to_wcs s).crpix, cd := (celestial_frame_to_wcs s).cd,
        cdelt := (celestial_frame_to_wcs s).cdelt, sip := (celestial_frame_to_wcs s).sip,
        pixel_shape := some (pyMax xp + 1 - pyMin xp, pyMax yp + 1 - pyMin yp) }
      ProjPointArg.center xp yp lon lat o) xp yp lon lat o).cd.length = 4 := by
    simp [linear_stage, hlin, crval_crpix_guess, celestial_frame_to_wcs]
  obtain ⟨w, sp, hok, hsp, hctype, hla, hlb, hrow, hpres⟩ :=
    sip_stage_structure _ D hD1 hD9
      (by rw [hct3]; exact codes_no_sip s hs) hcp3 hcd3 xp yp lon lat o hsip
  rw [hok]
  refine ⟨w, sp, rfl, hsp, ?_, coef_names_eq_map D,
    fun i j => mem_sipPairs (by omega) i j, hla, hlb, hrow, hpres⟩
  rw [hctype, hct3]
  rfl




set_option maxRecDepth 10000 in
/-- C9 counterexample: at sip_degree 10 the coefficient-grid loop parses
the third character of the name 10_0, an underscore, so the call raises
the int conversion ValueError and returns no WCS at all. -/
theorem sip_degree_ten_fails :
    fit_wcs_from_points [0] [0] [0] [0] .center (.code "TAN") (.intArg 10) trivOracles
      = .error (.valueError invalidLitMsg) := by decide

/-- Witness for C9 amended at degree 2 with the identity oracles. -/
theorem sip_structure_main_w :
    ∃ w sp, fit_wcs_from_points [0] [0] [0] [0] .center (.code "TAN") (.intArg 2) idOracles
        = .ok w ∧
      w.sip = some sp ∧
      w.ctype = [("RA---" ++ "TAN") ++ "-SIP", ("DEC--" ++ "TAN") ++ "-SIP"] ∧
      coef_names 2 = (sipPairs 2).map pairName ∧
      (∀ i j : ℕ, (i, j) ∈ sipPairs 2 ↔ 2 ≤ i + j ∧ (i : ℤ) + (j : ℤ) ≤ 2) ∧
      sp.a.length = ((2 : ℤ) + 1).toNat ∧ sp.b.length = ((2 : ℤ) + 1).toNat ∧
      (∀ k, k < ((2 : ℤ) + 1).toNat →
        (sp.a.getD k []).length = ((2 : ℤ) + 1).toNat ∧
        (sp.b.getD k []).length = ((2 : ℤ) + 1).toNat) ∧
      (∀ p q : ℕ, p + q < 2 ∨ (2 : ℤ) < (p : ℤ) + (q : ℤ) →
        getEntry sp.a p q = 0 ∧ getEntry sp.b p q = 0) :=
  sip_structure_main 2 (by norm_num) (by norm_num) "TAN" (by decide) [0] [0] [0] [0]
    idOracles (fun _ _ _ _ _ _ => rfl) (fun _ _ _ _ _ _ _ => rfl)


end Astrocut
